import Mathlib

/-!
Verification of `validate_api.py`, a sequential API smoke-test runner.

The script reads two credentials from the environment, runs four HTTP
checks in order (check-env, generate-fields, scrape, enrich), records one
boolean per check, prints a `Passed: p/t` summary, and exits 0 iff all
checks passed.  We embed the script shallowly: JSON values are an
inductive type, an HTTP interaction outcome is either a response or a
raised exception, each check function maps an outcome to the boolean the
Python function returns, and `program` composes them exactly as `main`
does.
-/

namespace ValidateApi

/-- JSON values, as produced by `response.json()`. -/
inductive Json where
  | null
  | bool (b : Bool)
  | num (n : Int)
  | str (s : String)
  | arr (xs : List Json)
  | obj (kvs : List (String × Json))

/-- Python truthiness of a JSON value (`None`, `False`, `0`, `""`, `[]`,
`{\x7d` are falsy). -/
def Json.truthy : Json → Bool
  | .null => false
  | .bool b => b
  | .num n => n != 0
  | .str s => s != ""
  | .arr xs => !xs.isEmpty
  | .obj kvs => !kvs.isEmpty

/-- First binding of a key in an association list (Python dict lookup). -/
def lookupList : List (String × Json) → String → Option Json
  | [], _ => none
  | (k', v) :: rest, k => if k' = k then some v else lookupList rest k

/-- Key lookup on a JSON value: `none` when the value is not an object or
the key is absent. -/
def Json.lookup : Json → String → Option Json
  | .obj kvs, k => lookupList kvs k
  | _, _ => none

/-- Python `d.get(k)`: `None` when the key is absent.  (On a non-dict the
Python call raises `AttributeError`, which every caller in the script
catches and turns into a failed check; returning the falsy `null` here
yields the same boolean.) -/
def Json.get (j : Json) (k : String) : Json :=
  (j.lookup k).getD .null

/-- Python `d.get(k, default)`. -/
def Json.getD (j : Json) (k : String) (d : Json) : Json :=
  (j.lookup k).getD d

/-- Python `k in d` for a dict (`False` on a non-dict; in the script a
truthy non-dict hit is followed by an indexing that raises and is caught,
so the check's boolean is the same). -/
def Json.hasKey (j : Json) (k : String) : Bool :=
  (j.lookup k).isSome

/-- An HTTP response as the script observes it: status code, the result
of `response.json()` (`none` when parsing raises), the raw text, and the
decoded lines of `response.iter_lines()` for the streaming check. -/
structure Response where
  status : Nat
  body : Option Json
  text : String
  lines : List String

/-- Outcome of one HTTP interaction: a response, or an exception raised
anywhere inside the check's `try` block (connection refused, timeout,
decode error, ...). -/
inductive Outcome where
  | resp (r : Response)
  | exn (msg : String)

/-- `test_check_env_endpoint`: pass iff status 200 and the JSON body's
`environmentStatus` has truthy `FIRECRAWL_API_KEY` and `OPENAI_API_KEY`. -/
def test_check_env_endpoint : Outcome → Bool
  | .exn _ => false
  | .resp r =>
    if r.status = 200 then
      match r.body with
      | none => false
      | some data =>
        let env_status := data.getD "environmentStatus" (.obj [])
        (env_status.get "FIRECRAWL_API_KEY").truthy &&
          (env_status.get "OPENAI_API_KEY").truthy
    else false

/-- `test_generate_fields`: pass iff status 200 and the body has a truthy
`success` and a `fields` key inside `data`. -/
def test_generate_fields : Outcome → Bool
  | .exn _ => false
  | .resp r =>
    if r.status = 200 then
      match r.body with
      | none => false
      | some result =>
        (result.get "success").truthy &&
          (result.getD "data" (.obj [])).hasKey "fields"
    else false

/-- `test_scrape_endpoint`: pass iff status 200 with the expected body
shape, or status 429 (rate limiting, accepted with a warning). -/
def test_scrape_endpoint : Outcome → Bool
  | .exn _ => false
  | .resp r =>
    if r.status = 200 then
      match r.body with
      | none => false
      | some result =>
        (result.get "success").truthy &&
          (result.getD "data" (.obj [])).hasKey "content"
    else if r.status = 429 then true
    else false

/-- Python `line.startswith(pre)`, as a character-list prefix test. -/
def strStartsWith (s pre : String) : Bool :=
  pre.toList.isPrefixOf s.toList

/-- `test_enrich_endpoint`: on status 200, read the first five lines of
the stream, keep the non-empty ones, and pass iff at least one starts
with `data: `. -/
def test_enrich_endpoint : Outcome → Bool
  | .exn _ => false
  | .resp r =>
    if r.status = 200 then
      let lines := (r.lines.take 5).filter (fun l => l != "")
      let valid_events := lines.filter (fun l => strStartsWith l "data: ")
      !valid_events.isEmpty
    else false

/-- The two credentials as read by `os.getenv` (`none` = unset). -/
structure Env where
  firecrawl : Option String
  openai : Option String

/-- Python truthiness of an `os.getenv` result: unset and empty string
are both falsy. -/
def strTruthy : Option String → Bool
  | none => false
  | some s => s != ""

/-- What `check_environment` printed and returned. -/
structure EnvCheck where
  output : List String
  ok : Bool

/-- `check_environment`: fail on the first falsy credential, naming it
(the emoji prefix of the printed line is elided). -/
def check_environment (e : Env) : EnvCheck :=
  if !strTruthy e.firecrawl then ⟨["FIRECRAWL_API_KEY not set"], false⟩
  else if !strTruthy e.openai then ⟨["OPENAI_API_KEY not set"], false⟩
  else ⟨["Environment variables verified"], true⟩

/-- A check as the runner loop in `main` sees it: the call either returns
a boolean or raises. -/
inductive CheckRun where
  | returns (b : Bool)
  | raises (msg : String)

/-- The body of the `for test in tests` loop: a raised exception is
caught and recorded as `False`. -/
def runCheck : CheckRun → Bool
  | .returns b => b
  | .raises _ => false

/-- The runner loop: one boolean per check, in order. -/
def run_tests (runs : List CheckRun) : List Bool :=
  runs.map runCheck

/-- The booleans `main` collects from the four endpoint checks, given
the HTTP outcome each one observes. -/
def resultsList (o1 o2 o3 o4 : Outcome) : List Bool :=
  [test_check_env_endpoint o1, test_generate_fields o2,
   test_scrape_endpoint o3, test_enrich_endpoint o4]

/-- The final summary line `Passed: p/t`. -/
def summaryLineOf (p t : Nat) : String :=
  "Passed: " ++ toString p ++ "/" ++ toString t

/-- Observable result of `main`: the exit code, how many checks were run
(each issues one HTTP request), and the summary line if one was printed. -/
structure MainResult where
  exitCode : Nat
  httpAttempts : Nat
  summaryLine : Option String

/-- `main`: abort with exit 1 before any request if the environment check
fails; otherwise run the four checks, tally, print `Passed: p/t`, and
exit 0 iff `p = t`. -/
def program (env : Env) (o1 o2 o3 o4 : Outcome) : MainResult :=
  if (check_environment env).ok then
    let results := resultsList o1 o2 o3 o4
    let passed := results.count true
    let total := results.length
    { exitCode := if passed = total then 0 else 1,
      httpAttempts := 4,
      summaryLine := some (summaryLineOf passed total) }
  else
    { exitCode := 1, httpAttempts := 0, summaryLine := none }

/-- C3: for the scrape check, an HTTP 429 response is recorded as a pass,
for every accompanying response body (parsed or not), text, and lines. -/
theorem c3_scrape_429_passes (b : Option Json) (t : String) (l : List String) :
    test_scrape_endpoint (.resp ⟨429, b, t, l⟩) = true := by
  cases b <;> rfl

/-- C4: for every check other than the scrape check (check-env,
generate-fields, enrich), an HTTP 429 response is recorded as a failure,
whatever the body, text, and lines. -/
theorem c4_429_fails_other_checks :
    (∀ (b : Option Json) (t : String) (l : List String),
      test_check_env_endpoint (.resp ⟨429, b, t, l⟩) = false) ∧
    (∀ (b : Option Json) (t : String) (l : List String),
      test_generate_fields (.resp ⟨429, b, t, l⟩) = false) ∧
    (∀ (b : Option Json) (t : String) (l : List String),
      test_enrich_endpoint (.resp ⟨429, b, t, l⟩) = false) := by
  refine ⟨fun b t l => ?_, fun b t l => ?_, fun b t l => ?_⟩ <;>
    cases b <;> rfl

/-- C6: an exception raised during a check is captured as a failure for
that check only: each endpoint check maps a raised exception to `false`,
the runner loop turns a check that raises into a recorded `False`, and it
collects exactly one boolean per check, in invocation order. -/
theorem c6_exceptions_contained :
    (∀ m, test_check_env_endpoint (.exn m) = false) ∧
    (∀ m, test_generate_fields (.exn m) = false) ∧
    (∀ m, test_scrape_endpoint (.exn m) = false) ∧
    (∀ m, test_enrich_endpoint (.exn m) = false) ∧
    (∀ m, runCheck (.raises m) = false) ∧
    (∀ runs : List CheckRun, (run_tests runs).length = runs.length) ∧
    (∀ (runs : List CheckRun) (i : Nat),
      (run_tests runs).get? i = (runs.get? i).map runCheck) := by
  refine ⟨fun m => rfl, fun m => rfl, fun m => rfl, fun m => rfl,
    fun m => rfl, fun runs => List.length_map _ _, fun runs i => ?_⟩
  simp [run_tests]

/-- C1: once the environment check passes, the exit code is 0 iff all
four checks are recorded as passed; otherwise it is 1, and the summary
line reports the number of passed checks out of 4. -/
theorem c1_exit_code_and_summary (env : Env) (o1 o2 o3 o4 : Outcome)
    (h : (check_environment env).ok = true) :
    ((program env o1 o2 o3 o4).exitCode = 0 ↔
      resultsList o1 o2 o3 o4 = [true, true, true, true]) ∧
    ((program env o1 o2 o3 o4).exitCode = 0 ∨
      (program env o1 o2 o3 o4).exitCode = 1) ∧
    (program env o1 o2 o3 o4).summaryLine =
      some (summaryLineOf ((resultsList o1 o2 o3 o4).count true) 4) := by
  have hd : resultsList o1 o2 o3 o4 =
      [test_check_env_endpoint o1, test_generate_fields o2,
       test_scrape_endpoint o3, test_enrich_endpoint o4] := rfl
  simp only [program, h, if_true]
  rw [hd]
  cases test_check_env_endpoint o1 <;> cases test_generate_fields o2 <;>
    cases test_scrape_endpoint o3 <;> cases test_enrich_endpoint o4 <;>
    simp [List.count, List.countP] <;> decide

/-- C1 witness: with a non-empty credential pair and all four outcomes
exceptions, the theorem applies; the exit code is then 1. -/
theorem c1_witness :
    (check_environment ⟨some "a", some "b"⟩).ok = true ∧
    (((program ⟨some "a", some "b"⟩ (.exn "e") (.exn "e") (.exn "e")
        (.exn "e")).exitCode = 0 ↔
      resultsList (.exn "e") (.exn "e") (.exn "e") (.exn "e") =
        [true, true, true, true]) ∧
    ((program ⟨some "a", some "b"⟩ (.exn "e") (.exn "e") (.exn "e")
        (.exn "e")).exitCode = 0 ∨
      (program ⟨some "a", some "b"⟩ (.exn "e") (.exn "e") (.exn "e")
        (.exn "e")).exitCode = 1) ∧
    (program ⟨some "a", some "b"⟩ (.exn "e") (.exn "e") (.exn "e")
        (.exn "e")).summaryLine =
      some (summaryLineOf ((resultsList (.exn "e") (.exn "e") (.exn "e")
        (.exn "e")).count true) 4)) :=
  ⟨by decide,
   c1_exit_code_and_summary ⟨some "a", some "b"⟩ (.exn "e") (.exn "e")
     (.exn "e") (.exn "e") (by decide)⟩

/-- C2: if either credential is falsy in the environment, the diagnostic
names a missing credential, the exit code is 1, and no HTTP request is
attempted. -/
theorem c2_missing_credential_aborts (env : Env) (o1 o2 o3 o4 : Outcome)
    (h : strTruthy env.firecrawl = false ∨ strTruthy env.openai = false) :
    (program env o1 o2 o3 o4).exitCode = 1 ∧
    (program env o1 o2 o3 o4).httpAttempts = 0 ∧
    (if strTruthy env.firecrawl = false then
      (check_environment env).output = ["FIRECRAWL_API_KEY not set"]
     else
      (check_environment env).output = ["OPENAI_API_KEY not set"]) := by
  have hok : (check_environment env).ok = false := by
    unfold check_environment
    rcases h with h | h
    · simp [h]
    · cases hf : strTruthy env.firecrawl <;> simp [hf, h]
  refine ⟨?_, ?_, ?_⟩
  · simp [program, hok]
  · simp [program, hok]
  · unfold check_environment
    rcases h with h | h
    · simp [h]
    · cases hf : strTruthy env.firecrawl <;> simp [hf, h]

/-- C2 witness: with both credentials absent the program exits 1, zero
HTTP requests are attempted, and the diagnostic names FIRECRAWL_API_KEY. -/
theorem c2_witness :
    (strTruthy (none : Option String) = false ∨
      strTruthy (none : Option String) = false) ∧
    ((program ⟨none, none⟩ (.exn "e") (.exn "e") (.exn "e")
        (.exn "e")).exitCode = 1 ∧
     (program ⟨none, none⟩ (.exn "e") (.exn "e") (.exn "e")
        (.exn "e")).httpAttempts = 0 ∧
     (if strTruthy (Env.mk none none).firecrawl = false then
       (check_environment ⟨none, none⟩).output = ["FIRECRAWL_API_KEY not set"]
      else
       (check_environment ⟨none, none⟩).output = ["OPENAI_API_KEY not set"])) :=
  ⟨Or.inl rfl,
   c2_missing_credential_aborts ⟨none, none⟩ (.exn "e") (.exn "e") (.exn "e")
     (.exn "e") (Or.inl rfl)⟩

/-- C5: an HTTP status other than 200 (and other than 429 for the scrape
check) is recorded as a failure by every check, and when the environment
check passes the run executes all four checks unconditionally, recording
four booleans. -/
theorem c5_other_status_fails_run_continues (s : Nat)
    (h200 : s ≠ 200) (h429 : s ≠ 429) :
    (∀ (b : Option Json) (t : String) (l : List String),
      test_check_env_endpoint (.resp ⟨s, b, t, l⟩) = false) ∧
    (∀ (b : Option Json) (t : String) (l : List String),
      test_generate_fields (.resp ⟨s, b, t, l⟩) = false) ∧
    (∀ (b : Option Json) (t : String) (l : List String),
      test_scrape_endpoint (.resp ⟨s, b, t, l⟩) = false) ∧
    (∀ (b : Option Json) (t : String) (l : List String),
      test_enrich_endpoint (.resp ⟨s, b, t, l⟩) = false) ∧
    (∀ (env : Env) (o1 o2 o3 o4 : Outcome),
      (check_environment env).ok = true →
        (program env o1 o2 o3 o4).httpAttempts = 4 ∧
        (resultsList o1 o2 o3 o4).length = 4) := by
  refine ⟨fun b t l => ?_, fun b t l => ?_, fun b t l => ?_, fun b t l => ?_,
    fun env o1 o2 o3 o4 hok => ⟨?_, rfl⟩⟩
  · simp [test_check_env_endpoint, h200]
  · simp [test_generate_fields, h200]
  · simp [test_scrape_endpoint, h200, h429]
  · simp [test_enrich_endpoint, h200]
  · simp [program, hok]

/-- C5 witness: at status 500 each check fails on a concrete response,
and a run with passing environment still records 4 booleans. -/
theorem c5_witness :
    ((500 : Nat) ≠ 200) ∧ ((500 : Nat) ≠ 429) ∧
    test_check_env_endpoint (.resp ⟨500, none, "", []⟩) = false ∧
    test_generate_fields (.resp ⟨500, none, "", []⟩) = false ∧
    test_scrape_endpoint (.resp ⟨500, none, "", []⟩) = false ∧
    test_enrich_endpoint (.resp ⟨500, none, "", []⟩) = false ∧
    ((program ⟨some "a", some "b"⟩ (.resp ⟨500, none, "", []⟩)
        (.resp ⟨500, none, "", []⟩) (.resp ⟨500, none, "", []⟩)
        (.resp ⟨500, none, "", []⟩)).httpAttempts = 4 ∧
      (resultsList (.resp ⟨500, none, "", []⟩) (.resp ⟨500, none, "", []⟩)
        (.resp ⟨500, none, "", []⟩) (.resp ⟨500, none, "", []⟩)).length = 4) :=
  ⟨by decide, by decide,
   (c5_other_status_fails_run_continues 500 (by decide) (by decide)).1 none "" [],
   (c5_other_status_fails_run_continues 500 (by decide) (by decide)).2.1 none "" [],
   (c5_other_status_fails_run_continues 500 (by decide) (by decide)).2.2.1 none "" [],
   (c5_other_status_fails_run_continues 500 (by decide) (by decide)).2.2.2.1 none "" [],
   (c5_other_status_fails_run_continues 500 (by decide) (by decide)).2.2.2.2
     ⟨some "a", some "b"⟩ _ _ _ _ (by decide)⟩

lemma enrich_200_iff (b : Option Json) (t : String) (ls : List String) :
    test_enrich_endpoint (.resp ⟨200, b, t, ls⟩) = true ↔
      ∃ l ∈ ls.take 5, strStartsWith l "data: " = true := by
  have he : test_enrich_endpoint (.resp ⟨200, b, t, ls⟩) =
      !(((ls.take 5).filter (fun l => l != "")).filter
        (fun l => strStartsWith l "data: ")).isEmpty := rfl
  rw [he, Bool.not_eq_true', List.isEmpty_eq_false, ne_eq, List.filter_filter,
    List.filter_eq_nil_iff]
  push_neg
  constructor
  · rintro ⟨l, hl, hp⟩
    rw [Bool.and_eq_true] at hp
    exact ⟨l, hl, hp.1⟩
  · rintro ⟨l, hl, hp⟩
    have hne : l ≠ "" := by
      intro hcon
      rw [hcon] at hp
      exact absurd hp (by decide)
    refine ⟨l, hl, ?_⟩
    rw [Bool.and_eq_true, bne_iff_ne]
    exact ⟨hp, hne⟩

/-- C7: the enrich check on a 200 response passes iff at least one of
the first five lines of the stream begins with `data: `; the result
depends on nothing beyond those five lines; and a stream whose first
line is the `start` event passes whatever follows. -/
theorem c7_enrich_first_five_lines :
    (∀ (b : Option Json) (t : String) (ls : List String),
      test_enrich_endpoint (.resp ⟨200, b, t, ls⟩) = true ↔
        ∃ l ∈ ls.take 5, strStartsWith l "data: " = true) ∧
    (∀ (b : Option Json) (t : String) (ls₁ ls₂ : List String),
      ls₁.take 5 = ls₂.take 5 →
        test_enrich_endpoint (.resp ⟨200, b, t, ls₁⟩) =
          test_enrich_endpoint (.resp ⟨200, b, t, ls₂⟩)) ∧
    (∀ (b : Option Json) (t : String) (rest : List String),
      test_enrich_endpoint
        (.resp ⟨200, b, t, "data: \x7b\"type\":\"start\"\x7d" :: rest⟩) =
        true) := by
  refine ⟨enrich_200_iff, fun b t ls₁ ls₂ h12 => ?_, fun b t rest => ?_⟩
  · have e1 : test_enrich_endpoint (.resp ⟨200, b, t, ls₁⟩) =
        !(((ls₁.take 5).filter (fun l => l != "")).filter
          (fun l => strStartsWith l "data: ")).isEmpty := rfl
    have e2 : test_enrich_endpoint (.resp ⟨200, b, t, ls₂⟩) =
        !(((ls₂.take 5).filter (fun l => l != "")).filter
          (fun l => strStartsWith l "data: ")).isEmpty := rfl
    rw [e1, e2, h12]
  · refine (enrich_200_iff b t _).mpr
      ⟨"data: \x7b\"type\":\"start\"\x7d", ?_, by decide⟩
    simp [List.take_succ_cons]

/-- C7 witness: two streams agreeing on their first five lines yield the
same enrich verdict. -/
theorem c7_witness :
    (["a", "b", "c", "d", "e", "f"] : List String).take 5 =
      (["a", "b", "c", "d", "e", "g"] : List String).take 5 ∧
    test_enrich_endpoint
        (.resp ⟨200, none, "", ["a", "b", "c", "d", "e", "f"]⟩) =
      test_enrich_endpoint
        (.resp ⟨200, none, "", ["a", "b", "c", "d", "e", "g"]⟩) :=
  ⟨by decide, c7_enrich_first_five_lines.2.1 none "" _ _ (by decide)⟩

/-- The check-env pass condition as the spec words it: status 200, a
parsed JSON body whose `environmentStatus` maps both credential keys to
truthy values. -/
def spec_check_env_pass (r : Response) : Prop :=
  r.status = 200 ∧ ∃ j st fv ov,
    r.body = some j ∧
    j.lookup "environmentStatus" = some st ∧
    st.lookup "FIRECRAWL_API_KEY" = some fv ∧ fv.truthy = true ∧
    st.lookup "OPENAI_API_KEY" = some ov ∧ ov.truthy = true

lemma get_truthy (j : Json) (k : String) :
    (j.get k).truthy = true ↔ ∃ v, j.lookup k = some v ∧ v.truthy = true := by
  cases h : j.lookup k <;> simp [Json.get, h, Json.truthy]

lemma getD_env_truthy (data : Json) (k : String) :
    ((data.getD "environmentStatus" (.obj [])).get k).truthy = true ↔
      ∃ st, data.lookup "environmentStatus" = some st ∧
        ∃ v, st.lookup k = some v ∧ v.truthy = true := by
  cases h : data.lookup "environmentStatus" with
  | none =>
    simp only [Json.getD, h, Option.getD_none]
    simp [Json.get, Json.lookup, lookupList, Json.truthy, h]
  | some st => simp [Json.getD, h, get_truthy]

/-- C8: the check-env check passes exactly when the response has status
200 and its JSON body's `environmentStatus` maps both credential keys to
truthy values; concrete instances with both flags true, one flag absent,
and one flag false. -/
theorem c8_check_env_pass_iff :
    (∀ r : Response,
      test_check_env_endpoint (.resp r) = true ↔ spec_check_env_pass r) ∧
    test_check_env_endpoint (.resp ⟨200,
      some (.obj [("environmentStatus", .obj
        [("FIRECRAWL_API_KEY", .bool true), ("OPENAI_API_KEY", .bool true)])]),
      "", []⟩) = true ∧
    test_check_env_endpoint (.resp ⟨200,
      some (.obj [("environmentStatus", .obj
        [("FIRECRAWL_API_KEY", .bool true)])]), "", []⟩) = false ∧
    test_check_env_endpoint (.resp ⟨200,
      some (.obj [("environmentStatus", .obj
        [("FIRECRAWL_API_KEY", .bool true), ("OPENAI_API_KEY", .bool false)])]),
      "", []⟩) = false := by
  refine ⟨fun r => ?_, by decide, by decide, by decide⟩
  obtain ⟨status, body, text, lines⟩ := r
  unfold test_check_env_endpoint spec_check_env_pass
  dsimp only
  by_cases hs : status = 200
  · subst hs
    rw [if_pos rfl]
    cases body with
    | none => simp
    | some data =>
      simp only [Bool.and_eq_true, getD_env_truthy, Option.some.injEq]
      constructor
      · rintro ⟨⟨st, hst, fv, hfv, hfvt⟩, ⟨st', hst', ov, hov, hovt⟩⟩
        rw [hst] at hst'
        injection hst' with he
        subst he
        exact ⟨trivial, data, st, fv, ov, rfl, hst, hfv, hfvt, hov, hovt⟩
      · rintro ⟨-, j, st, fv, ov, hj, hst, hfv, hfvt, hov, hovt⟩
        subst hj
        exact ⟨⟨st, hst, fv, hfv, hfvt⟩, ⟨st, hst, ov, hov, hovt⟩⟩
  · rw [if_neg hs]
    simp [hs]

/-- C9: a credential set to the empty string is treated exactly like an
absent credential: `check_environment` does not distinguish them, and a
run with an empty-string credential exits 1 with no HTTP request made. -/
theorem c9_empty_string_like_absent :
    (∀ o : Option String,
      check_environment ⟨some "", o⟩ = check_environment ⟨none, o⟩) ∧
    (∀ f : Option String,
      check_environment ⟨f, some ""⟩ = check_environment ⟨f, none⟩) ∧
    (∀ (env : Env) (o1 o2 o3 o4 : Outcome),
      env.firecrawl = some "" ∨ env.openai = some "" →
        (program env o1 o2 o3 o4).exitCode = 1 ∧
        (program env o1 o2 o3 o4).httpAttempts = 0) := by
  refine ⟨fun o => rfl, fun f => ?_, fun env o1 o2 o3 o4 h => ?_⟩
  · unfold check_environment
    cases hf : strTruthy f <;> simp [hf, strTruthy]
  · have hok : (check_environment env).ok = false := by
      unfold check_environment
      rcases h with h | h
      · simp [h, strTruthy]
      · cases hf : strTruthy env.firecrawl <;> simp [hf, h, strTruthy]
    constructor <;> simp [program, hok]

/-- C9 witness: with FIRECRAWL_API_KEY set to the empty string, the
program exits 1 without attempting any HTTP request. -/
theorem c9_witness :
    ((Env.mk (some "") (some "k")).firecrawl = some "" ∨
      (Env.mk (some "") (some "k")).openai = some "") ∧
    ((program ⟨some "", some "k"⟩ (.exn "e") (.exn "e") (.exn "e")
        (.exn "e")).exitCode = 1 ∧
     (program ⟨some "", some "k"⟩ (.exn "e") (.exn "e") (.exn "e")
        (.exn "e")).httpAttempts = 0) :=
  ⟨Or.inl rfl,
   c9_empty_string_like_absent.2.2 ⟨some "", some "k"⟩ (.exn "e") (.exn "e")
     (.exn "e") (.exn "e") (Or.inl rfl)⟩

/-- C10: when FIRECRAWL_API_KEY is falsy, `check_environment` fails with
a diagnostic naming only FIRECRAWL_API_KEY, and OPENAI_API_KEY is never
consulted: the outcome is the same for every value of it. -/
theorem c10_first_credential_short_circuits (f o : Option String)
    (h : strTruthy f = false) :
    check_environment ⟨f, o⟩ = ⟨["FIRECRAWL_API_KEY not set"], false⟩ ∧
    (∀ o' : Option String, check_environment ⟨f, o⟩ = check_environment ⟨f, o'⟩) := by
  constructor
  · unfold check_environment
    simp [h]
  · intro o'
    unfold check_environment
    simp [h]

/-- C10 witness: with both credentials absent, the diagnostic names only
FIRECRAWL_API_KEY, and setting OPENAI_API_KEY would not change it. -/
theorem c10_witness :
    strTruthy (none : Option String) = false ∧
    check_environment ⟨none, none⟩ = ⟨["FIRECRAWL_API_KEY not set"], false⟩ ∧
    check_environment ⟨none, none⟩ = check_environment ⟨none, some "set"⟩ :=
  ⟨rfl, (c10_first_credential_short_circuits none none rfl).1,
   (c10_first_credential_short_circuits none none rfl).2 (some "set")⟩

end ValidateApi
